import Mathlib

/-! Shallow embedding of src/main.py (photographer portfolio backend):
token service, access guard, registration, storage layout, upload
pipeline, and the download / zip endpoints. Strings are modelled by Lean
strings (lists of characters). The JWT signature is modelled
algebraically: a token value carries the claim set together with the key
it was signed with, and decoding verifies the signature iff the keys
agree. HTTP errors are modelled by their status codes (Except Nat). -/

/-- Last index of character c in a list, like Python str.rfind restricted
to a single-character needle (none when absent). -/
def rfindIdx (c : Char) : List Char → Option Nat
  | [] => none
  | x :: xs =>
    match rfindIdx c xs with
    | some i => some (i + 1)
    | none => if x = c then some 0 else none

/-- os.path.splitext following CPython genericpath.py (posix separator
"/"): splits at the last dot of the final path component, unless every
character of that component before the dot is itself a dot (leading dots
are not extension separators). -/
def splitext (p : String) : String × String :=
  let cs := p.data
  match rfindIdx '.' cs with
  | none => (p, "")
  | some d =>
    let base : Nat :=
      match rfindIdx '/' cs with
      | none => 0
      | some s => s + 1
    if base ≤ d then
      if ((cs.drop base).take (d - base)).any (fun c => c != '.') then
        (⟨cs.take d⟩, ⟨cs.drop d⟩)
      else (p, "")
    else (p, "")

/-- os.path.basename for posix paths: everything after the last "/". -/
def basename (p : String) : String :=
  match rfindIdx '/' p.data with
  | none => p
  | some s => ⟨p.data.drop (s + 1)⟩

/-- Python s.lstrip("/"): drop all leading slash characters. -/
def lstripSlash (s : String) : String := ⟨s.data.dropWhile (fun c => c == '/')⟩

/-- Python s.split(" ") on the character list: splits at every single
space character, keeping empty fields; the empty string yields [[]]. -/
def splitSpChars : List Char → List (List Char)
  | [] => [[]]
  | c :: cs =>
    if c = ' ' then [] :: splitSpChars cs
    else
      match splitSpChars cs with
      | [] => [[c]]
      | w :: ws => (c :: w) :: ws

/-- Python s.split(" ") at the string level. -/
def pySplitSpace (s : String) : List String :=
  (splitSpChars s.data).map (fun w => ⟨w⟩)

/-- Python str.lower restricted to ASCII letters, which is all the source
needs for its case-insensitive scheme keyword comparison. -/
def strLower (s : String) : String := ⟨s.data.map Char.toLower⟩

/-- Decoded JWT claim set as the source uses it: optional sub and role
claims plus the absolute expiry timestamp in seconds. -/
structure Payload where
  sub : Option String
  role : Option String
  exp : Int
deriving DecidableEq

/-- A signed token: the claim set together with the key it was signed
with. jwt.decode verifies the signature iff the keys agree. -/
structure Jwt where
  payload : Payload
  key : Nat
deriving DecidableEq

def ACCESS_TOKEN_EXPIRE_MINUTES : Int := 60 * 24 * 7

/-- create_access_token (src/main.py lines 48-52): copy the claims and
set exp := now + (expires_delta or the 7-day default), then sign with the
process key. Times are in seconds. -/
def create_access_token (key : Nat) (now : Int) (sub role : String)
    (expiresDelta : Option Int) : Jwt :=
  ⟨⟨some sub, some role, now + expiresDelta.getD (ACCESS_TOKEN_EXPIRE_MINUTES * 60)⟩, key⟩

/-- jwt.decode with a single HS256 key: succeeds iff the signature key
matches and the token is unexpired. PyJWT treats exp ≤ now as expired
(ExpiredSignatureError), so a token is live strictly before its exp. -/
def jwtDecode (key : Nat) (now : Int) (j : Jwt) : Option Payload :=
  if j.key = key then
    if j.payload.exp ≤ now then none else some j.payload
  else none

structure TokenData where
  user_id : String
  role : String
deriving DecidableEq

/-- TokenData(user_id=payload.get("sub"), role=payload.get("role","user"))
from src/main.py line 66: pydantic rejects a missing sub claim, because
user_id=None fails the str field validation, and the surrounding except
turns that into a 401. -/
def tokenDataOfPayload (p : Payload) : Option TokenData :=
  match p.sub with
  | some uid => some ⟨uid, p.role.getD "user"⟩
  | none => none

/-- get_current_user (src/main.py lines 58-68), parametric in the
string-level token decoder (standing for jwt.decode with the process key
at the current time). A falsy header, a header that does not split into
exactly two space-separated parts, a scheme keyword other than a
case-insensitive "bearer", a failing decode, and a missing sub claim all
raise 401. -/
def get_current_user (decode : String → Option Payload) (authorization : Option String) :
    Except Nat TokenData :=
  match authorization with
  | none => Except.error 401
  | some s =>
    if s = "" then Except.error 401
    else
      match pySplitSpace s with
      | [scheme, tok] =>
        if strLower scheme = "bearer" then
          match decode tok with
          | some payload =>
            match tokenDataOfPayload payload with
            | some td => Except.ok td
            | none => Except.error 401
          | none => Except.error 401
        else Except.error 401
      | _ => Except.error 401

/-- require_admin (src/main.py lines 70-73). -/
def require_admin (u : TokenData) : Except Nat TokenData :=
  if u.role ≠ "admin" then Except.error 403 else Except.ok u

/-- The guard chain of an admin-only endpoint: Depends(get_current_user)
then require_admin; a failing dependency propagates its own status. -/
def admin_guard (decode : String → Option Payload) (authorization : Option String) :
    Except Nat TokenData :=
  match get_current_user decode authorization with
  | Except.ok u => require_admin u
  | Except.error e => Except.error e

/-- Photo document as inserted by upload_photo (src/main.py lines
220-230) and described by schemas.Photo, with the Mongo _id rendered as a
string id. -/
structure PhotoDoc where
  id : String
  album_id : String
  title : Option String
  description : Option String
  file_url : String
  file_name : Option String
  file_size : Nat
  downloadable : Bool
deriving DecidableEq

/-- User document as inserted by register (src/main.py lines 137-145). -/
structure UserDoc where
  id : String
  name : String
  email : String
  password_hash : String
  role : String
deriving DecidableEq

structure RegReq where
  name : String
  email : String
  password : String
deriving DecidableEq

/-- register (src/main.py lines 129-148): reject a duplicate email with
400, give role admin exactly when the user collection is empty
(count_documents == 0), then insert; insertion appends, so the list keeps
chronological order. The password hasher is an opaque capability. -/
def register (hash : String → String) (users : List UserDoc) (freshId : String)
    (r : RegReq) : Except Nat (List UserDoc × UserDoc) :=
  if users.any (fun u => u.email == r.email) then Except.error 400
  else
    let role := if users.length = 0 then "admin" else "user"
    let doc : UserDoc := ⟨freshId, r.name, r.email, hash r.password, role⟩
    Except.ok (users ++ [doc], doc)

/-- A sequence of registration requests run against a user collection;
a failed registration leaves the collection unchanged. -/
def runRegs (hash : String → String) (reqs : List (String × RegReq))
    (users : List UserDoc) : List UserDoc :=
  match reqs with
  | [] => users
  | (fid, r) :: rest =>
    match register hash users fid r with
    | Except.ok (users', _) => runRegs hash rest users'
    | Except.error _ => runRegs hash rest users

/-- The storage layout computation inside upload_photo (src/main.py lines
209-218): UPLOAD_DIR is cwd/uploads, the unique name is a fresh ObjectId
string followed by the splitext extension of the original filename, and
the result is the pair (physical path, public URL). os.path.join is
modelled as "/"-concatenation. -/
def allocate (cwd albumId origName oid : String) : String × String :=
  let safeName := oid ++ (splitext origName).2
  (cwd ++ "/uploads" ++ "/" ++ albumId ++ "/" ++ safeName,
   "/uploads/" ++ albumId ++ "/" ++ safeName)

structure StorageState where
  files : List String
  photos : List PhotoDoc
deriving DecidableEq

/-- upload_photo (src/main.py lines 203-232) after its admin guard: album
existence check first (404 with nothing touched), then allocation, then
the byte write, then the record insert. The write is modelled atomically
by writeOk: a raised write error aborts the request with no record
insert. contentSize is the size read back from the written file. -/
def upload_photo (albums : List String) (st : StorageState) (cwd albumId filename : String)
    (title description : Option String) (oid newId : String) (contentSize : Nat)
    (writeOk : Bool) : Except Nat PhotoDoc × StorageState :=
  if albums.contains albumId = false then (Except.error 404, st)
  else
    let loc := allocate cwd albumId filename oid
    if writeOk then
      let doc : PhotoDoc :=
        ⟨newId, albumId, title, description, loc.2, some filename, contentSize, true⟩
      (Except.ok doc, ⟨loc.1 :: st.files, doc :: st.photos⟩)
    else (Except.error 500, st)

/-- The fs_path a stored file_url resolves to (src/main.py lines 241 and
261): os.path.join(os.getcwd(), file_url.lstrip("/")). -/
def fsPathOf (cwd url : String) : String := cwd ++ "/" ++ lstripSlash url

/-- The download name used by both endpoints: p.get("file_name") or
os.path.basename(fs_path) — Python `or` falls back when the stored
display name is missing or the empty string. -/
def arcnameOf (p : PhotoDoc) (fsPath : String) : String :=
  match p.file_name with
  | some s => if s = "" then basename fsPath else s
  | none => basename fsPath

/-- download_photo (src/main.py lines 234-244): 404 when the record or
the physical file is missing, otherwise a file response modelled as the
pair (served path, download name). fs tells which paths exist on disk. -/
def download_photo (photos : List PhotoDoc) (photoId cwd : String)
    (fs : String → Bool) : Except Nat (String × String) :=
  match photos.find? (fun p => p.id == photoId) with
  | none => Except.error 404
  | some p =>
    let fsPath := fsPathOf cwd p.file_url
    if fs fsPath then Except.ok (fsPath, arcnameOf p fsPath)
    else Except.error 404

/-- The zip-building loop of iterfile (src/main.py lines 256-266): one
entry (arcname, source path) per photo whose backing file exists; photos
whose file is gone are skipped silently. -/
def zipEntries (cwd : String) (fs : String → Bool) : List PhotoDoc → List (String × String)
  | [] => []
  | p :: ps =>
    let fsPath := fsPathOf cwd p.file_url
    if fs fsPath then (arcnameOf p fsPath, fsPath) :: zipEntries cwd fs ps
    else zipEntries cwd fs ps

structure ZipResponse where
  filename : String
  entries : List (String × String)
deriving DecidableEq

/-- download_album_zip (src/main.py lines 246-269): 404 when the album is
missing, 404 when the album has no photo records, otherwise the streamed
zip response built from the record set. -/
def download_album_zip (albums : List String) (photos : List PhotoDoc)
    (albumId cwd : String) (fs : String → Bool) : Except Nat ZipResponse :=
  if albums.contains albumId = false then Except.error 404
  else
    let ps := photos.filter (fun p => p.album_id == albumId)
    if ps.isEmpty then Except.error 404
    else Except.ok ⟨"album-" ++ albumId ++ ".zip", zipEntries cwd fs ps⟩

/-! ### Claim C2: token issue/validate roundtrip -/

/-- C2: for every subject id, role and ttl > 0, validating a token issued
as issue(id, role, ttl) at any time strictly before its expiry returns
exactly {id, role}; validating it at or after expiry fails with
InvalidToken (decode returns none). -/
theorem token_issue_validate_roundtrip (key : Nat) (id role : String)
    (ttl now t : Int) (httl : 0 < ttl) :
    (t < now + ttl →
      (jwtDecode key t (create_access_token key now id role (some ttl))).bind
          tokenDataOfPayload = some ⟨id, role⟩) ∧
    (now + ttl ≤ t →
      jwtDecode key t (create_access_token key now id role (some ttl)) = none) := by
  constructor
  · intro hlt
    have hx : ¬ (now + ttl ≤ t) := by omega
    simp [jwtDecode, create_access_token, tokenDataOfPayload, hx]
  · intro hle
    simp [jwtDecode, create_access_token, hle]

theorem token_issue_validate_roundtrip_witness :
    (0 : Int) < 10 ∧
      (((105 : Int) < 100 + 10 →
        (jwtDecode 7 105 (create_access_token 7 100 "u1" "admin" (some 10))).bind
            tokenDataOfPayload = some ⟨"u1", "admin"⟩) ∧
      ((100 : Int) + 10 ≤ 105 →
        jwtDecode 7 105 (create_access_token 7 100 "u1" "admin" (some 10)) = none)) :=
  ⟨by decide, token_issue_validate_roundtrip 7 "u1" "admin" 10 100 105 (by decide)⟩

/-! ### Claim C6: the first successful registration is the admin -/

lemma runRegs_roles (hash : String → String) (reqs : List (String × RegReq)) :
    ∀ users : List UserDoc,
      (users.map (fun u => u.role) =
        match users with
        | [] => []
        | _ :: rest => "admin" :: List.replicate rest.length "user") →
      ((runRegs hash reqs users).map (fun u => u.role) =
        match runRegs hash reqs users with
        | [] => []
        | _ :: rest => "admin" :: List.replicate rest.length "user") := by
  induction reqs with
  | nil => intro users h; simpa [runRegs] using h
  | cons hd tl ih =>
    intro users h
    obtain ⟨fid, r⟩ := hd
    by_cases hdup : users.any (fun u => u.email == r.email)
    · simpa [runRegs, register, hdup] using ih users h
    · simp only [runRegs, register, hdup, if_false, Bool.false_eq_true]
      apply ih
      cases users with
      | nil => simp
      | cons u us =>
        simp only [List.map_cons] at h
        have h1 : u.role = "admin" := by
          exact (List.cons.injEq _ _ _ _ ▸ h).1
        have h2 : us.map (fun u => u.role) = List.replicate us.length "user" := by
          exact (List.cons.injEq _ _ _ _ ▸ h).2
        simp [List.map_append, h1, h2, List.length_append, List.replicate_succ']

/-- C6: across every sequence of registrations starting from an empty
user collection, exactly the first successful registration creates a user
with role admin, and every subsequent registration creates a user with
role user: the final collection, in insertion order, carries roles
["admin", "user", "user", ...] (or is empty when nothing succeeded). -/
theorem first_successful_registration_is_admin (hash : String → String)
    (reqs : List (String × RegReq)) :
    (runRegs hash reqs []).map (fun u => u.role) =
      match runRegs hash reqs [] with
      | [] => []
      | _ :: rest => "admin" :: List.replicate rest.length "user" :=
  runRegs_roles hash reqs [] (by simp)

/-! ### Claim C7: allocation produces distinct paths and URLs -/

lemma strApp_data (a b : String) : (a ++ b).data = a.data ++ b.data := rfl

lemma string_data_inj {s t : String} (h : s.data = t.data) : s = t := by
  cases s; cases t; exact congrArg String.mk h

lemma append_inj_of_sides_fixed {pre ext a b : String}
    (h : pre ++ (a ++ ext) = pre ++ (b ++ ext)) : a = b := by
  have hd := congrArg String.data h
  simp only [strApp_data] at hd
  have h1 := List.append_cancel_left hd
  have h2 := List.append_cancel_right h1
  exact string_data_inj h2

lemma allocate_path_inj (cwd albumId origName : String) {o1 o2 : String}
    (h : (allocate cwd albumId origName o1).1 = (allocate cwd albumId origName o2).1) :
    o1 = o2 := by
  simp only [allocate] at h
  exact append_inj_of_sides_fixed h

lemma allocate_url_inj (cwd albumId origName : String) {o1 o2 : String}
    (h : (allocate cwd albumId origName o1).2 = (allocate cwd albumId origName o2).2) :
    o1 = o2 := by
  simp only [allocate] at h
  exact append_inj_of_sides_fixed h

/-- C7: calling the storage allocation N times with the same album id and
the same original filename, with the N freshly generated ObjectId strings
pairwise distinct (the ObjectId generator is globally unique), produces N
pairwise-distinct physical paths and N pairwise-distinct public URLs;
every allocation has physical location storageRoot/albumId/uniqueName and
public URL /uploads/albumId/uniqueName where uniqueName is the fresh id
followed by the splitext extension of the original filename (case kept,
leading dot included). -/
theorem allocate_distinct_paths_and_urls (cwd albumId origName : String)
    (oids : List String) (o : String) (h : oids.Pairwise (fun a b => a ≠ b)) :
    ((oids.map (fun x => (allocate cwd albumId origName x).1)).Pairwise
        (fun a b => a ≠ b)) ∧
    ((oids.map (fun x => (allocate cwd albumId origName x).2)).Pairwise
        (fun a b => a ≠ b)) ∧
    (allocate cwd albumId origName o).1 =
      cwd ++ "/uploads" ++ "/" ++ albumId ++ "/" ++ (o ++ (splitext origName).2) ∧
    (allocate cwd albumId origName o).2 =
      "/uploads/" ++ albumId ++ "/" ++ (o ++ (splitext origName).2) := by
  refine ⟨?_, ?_, rfl, rfl⟩
  · exact h.map _ (fun a b hab heq => hab (allocate_path_inj cwd albumId origName heq))
  · exact h.map _ (fun a b hab heq => hab (allocate_url_inj cwd albumId origName heq))

theorem allocate_distinct_paths_and_urls_witness :
    ((["oidA", "oidB", "oidC"] : List String).Pairwise (fun a b => a ≠ b)) ∧
    (((["oidA", "oidB", "oidC"] : List String).map
        (fun x => (allocate "/app" "a1" "Photo.JPG" x).1)).Pairwise
        (fun a b => a ≠ b) ∧
    ((["oidA", "oidB", "oidC"] : List String).map
        (fun x => (allocate "/app" "a1" "Photo.JPG" x).2)).Pairwise
        (fun a b => a ≠ b) ∧
    (allocate "/app" "a1" "Photo.JPG" "oidA").1 =
      "/app" ++ "/uploads" ++ "/" ++ "a1" ++ "/" ++
        ("oidA" ++ (splitext "Photo.JPG").2) ∧
    (allocate "/app" "a1" "Photo.JPG" "oidA").2 =
      "/uploads/" ++ "a1" ++ "/" ++ ("oidA" ++ (splitext "Photo.JPG").2)) :=
  ⟨by decide,
   allocate_distinct_paths_and_urls "/app" "a1" "Photo.JPG"
     ["oidA", "oidB", "oidC"] "oidA" (by decide)⟩

/-! ### Claim C3: the upload pipeline commits nothing partially -/

lemma lstripSlash_url (a b : String) :
    lstripSlash ("/uploads/" ++ a ++ "/" ++ b) = "uploads/" ++ a ++ "/" ++ b := by
  apply string_data_inj
  show List.dropWhile (fun c => c == '/') (("/uploads/" ++ a ++ "/" ++ b).data)
      = ("uploads/" ++ a ++ "/" ++ b).data
  have e1 : ("/uploads/" ++ a ++ "/" ++ b).data
      = '/' :: ("uploads/" ++ a ++ "/" ++ b).data := by
    simp only [strApp_data, List.append_assoc]
    rfl
  have e2 : ("uploads/" ++ a ++ "/" ++ b).data
      = 'u' :: ("ploads/" ++ a ++ "/" ++ b).data := by
    simp only [strApp_data, List.append_assoc]
    rfl
  rw [e1, List.dropWhile_cons]
  rw [show (('/' : Char) == '/') = true from rfl]
  rw [if_pos rfl, e2, List.dropWhile_cons]
  rw [show (('u' : Char) == '/') = false from rfl]
  simp

lemma fsPathOf_allocate (cwd albumId origName oid : String) :
    fsPathOf cwd ((allocate cwd albumId origName oid).2) =
      (allocate cwd albumId origName oid).1 := by
  simp only [allocate, fsPathOf]
  rw [lstripSlash_url]
  apply string_data_inj
  simp only [strApp_data, List.append_assoc]
  rfl

/-- C3: the upload pipeline commits nothing partially. Uploading into a
nonexistent album fails with 404 having written no file and created no
record; when persisting the bytes fails, no photo record is created; and
a successful upload means the write happened, the new record is the one
inserted, and its file_url resolves to exactly the physical path that was
written, so no committed record references a nonexistent file. -/
theorem upload_commits_nothing_partially (albums : List String) (st : StorageState)
    (cwd albumId filename : String) (title description : Option String)
    (oid newId : String) (contentSize : Nat) (writeOk : Bool) (doc : PhotoDoc) :
    (albums.contains albumId = false →
      upload_photo albums st cwd albumId filename title description oid newId
          contentSize writeOk = (Except.error 404, st)) ∧
    (writeOk = false →
      (upload_photo albums st cwd albumId filename title description oid newId
          contentSize writeOk).2 = st ∧
      (upload_photo albums st cwd albumId filename title description oid newId
          contentSize writeOk).1 ≠ Except.ok doc) ∧
    ((upload_photo albums st cwd albumId filename title description oid newId
          contentSize writeOk).1 = Except.ok doc →
      writeOk = true ∧
      (upload_photo albums st cwd albumId filename title description oid newId
          contentSize writeOk).2.photos = doc :: st.photos ∧
      (upload_photo albums st cwd albumId filename title description oid newId
          contentSize writeOk).2.files = fsPathOf cwd doc.file_url :: st.files) := by
  refine ⟨?_, ?_, ?_⟩
  · intro hc
    have hc' : ¬ albumId ∈ albums := by simpa using hc
    simp [upload_photo, hc']
  · intro hw
    subst hw
    by_cases hc : albumId ∈ albums
    · have hcc : albums.contains albumId = true := by simpa using hc
      simp [upload_photo, hcc, hc]
    · simp [upload_photo, hc]
  · intro hok
    by_cases hc : albumId ∈ albums
    · have hcc : albums.contains albumId = true := by simpa using hc
      by_cases hw : writeOk = true
      · subst hw
        simp only [upload_photo, hcc] at hok ⊢
        simp at hok ⊢
        subst hok
        simp [fsPathOf_allocate]
      · have hw' : writeOk = false := by
          cases writeOk
          · rfl
          · exact absurd rfl hw
        subst hw'
        simp [upload_photo, hcc, hc] at hok
    · simp [upload_photo, hc] at hok

theorem upload_commits_nothing_partially_witness :
    ((["a1"] : List String).contains "a1" = false →
      upload_photo ["a1"] ⟨[], []⟩ "/app" "a1" "x.jpg" none none "o1" "p1" 3 true =
        (Except.error 404, ⟨[], []⟩)) ∧
    (true = false →
      (upload_photo ["a1"] ⟨[], []⟩ "/app" "a1" "x.jpg" none none "o1" "p1" 3 true).2 =
        ⟨[], []⟩ ∧
      (upload_photo ["a1"] ⟨[], []⟩ "/app" "a1" "x.jpg" none none "o1" "p1" 3 true).1 ≠
        Except.ok ⟨"p1", "a1", none, none, "/uploads/a1/o1.jpg", some "x.jpg", 3, true⟩) ∧
    ((upload_photo ["a1"] ⟨[], []⟩ "/app" "a1" "x.jpg" none none "o1" "p1" 3 true).1 =
        Except.ok ⟨"p1", "a1", none, none, "/uploads/a1/o1.jpg", some "x.jpg", 3, true⟩ →
      (true = true) ∧
      (upload_photo ["a1"] ⟨[], []⟩ "/app" "a1" "x.jpg" none none "o1" "p1" 3 true).2.photos =
        (⟨"p1", "a1", none, none, "/uploads/a1/o1.jpg", some "x.jpg", 3, true⟩ : PhotoDoc) ::
          ([] : List PhotoDoc) ∧
      (upload_photo ["a1"] ⟨[], []⟩ "/app" "a1" "x.jpg" none none "o1" "p1" 3 true).2.files =
        fsPathOf "/app"
            (⟨"p1", "a1", none, none, "/uploads/a1/o1.jpg", some "x.jpg", 3,
              true⟩ : PhotoDoc).file_url ::
          ([] : List String)) :=
  upload_commits_nothing_partially ["a1"] ⟨[], []⟩ "/app" "a1" "x.jpg" none none "o1" "p1"
    3 true ⟨"p1", "a1", none, none, "/uploads/a1/o1.jpg", some "x.jpg", 3, true⟩

/-! ### Claim C5: archive contents -/

lemma zipEntries_eq_filter_map (cwd : String) (fs : String → Bool) (ps : List PhotoDoc) :
    zipEntries cwd fs ps
      = (ps.filter (fun q => fs (fsPathOf cwd q.file_url))).map
          (fun q => (arcnameOf q (fsPathOf cwd q.file_url), fsPathOf cwd q.file_url)) := by
  induction ps with
  | nil => rfl
  | cons p ps ih =>
    cases hfs : fs (fsPathOf cwd p.file_url) with
    | true => simp [zipEntries, hfs, ih]
    | false => simp [zipEntries, hfs, ih]

/-- C5 counterexample to the naming clause as stated: a photo record
whose display file_name is present but equal to "" (a falsy value in
Python) gets its archive entry named by the physical filename, not by the
present display name. -/
theorem archive_entry_name_counterexample :
    zipEntries "/app" (fun _ => true)
        [⟨"p1", "a1", none, none, "/uploads/a1/x.jpg", some "", 1, true⟩]
      = [("x.jpg", "/app/uploads/a1/x.jpg")] ∧
    (some "" : Option String) ≠ none ∧ ("x.jpg" : String) ≠ "" := by
  refine ⟨by decide, by simp, by decide⟩

/-- C5 (amended): for every non-empty set of photo records of one album,
the built archive has exactly one entry per photo whose backing file
exists (missing files are silently skipped and the archive still
succeeds), each entry named by the photo's display file_name, falling
back to the physical filename when the display name is absent or empty
(Python falsiness). In particular 3 photos with 1 missing backing file
yield exactly 2 entries. -/
theorem archive_one_entry_per_existing_file (cwd : String) (fs : String → Bool)
    (ps : List PhotoDoc) (p : PhotoDoc) (s : String) (h : ps ≠ []) :
    zipEntries cwd fs ps
      = (ps.filter (fun q => fs (fsPathOf cwd q.file_url))).map
          (fun q => (arcnameOf q (fsPathOf cwd q.file_url), fsPathOf cwd q.file_url)) ∧
    (zipEntries cwd fs ps).length
      = (ps.filter (fun q => fs (fsPathOf cwd q.file_url))).length ∧
    (p.file_name = some s → s ≠ "" → arcnameOf p (fsPathOf cwd p.file_url) = s) ∧
    ((p.file_name = none ∨ p.file_name = some "") →
      arcnameOf p (fsPathOf cwd p.file_url) = basename (fsPathOf cwd p.file_url)) := by
  refine ⟨zipEntries_eq_filter_map cwd fs ps, ?_, ?_, ?_⟩
  · rw [zipEntries_eq_filter_map]
    simp
  · intro hn hne
    simp [arcnameOf, hn, hne]
  · intro hn
    rcases hn with hn | hn <;> simp [arcnameOf, hn]

theorem archive_one_entry_per_existing_file_witness :
    (([⟨"p1", "a1", none, none, "/uploads/a1/a.jpg", some "A.jpg", 1, true⟩,
       ⟨"p2", "a1", none, none, "/uploads/a1/b.jpg", none, 1, true⟩,
       ⟨"p3", "a1", none, none, "/uploads/a1/c.jpg", some "C.jpg", 1, false⟩] :
        List PhotoDoc) ≠ []) ∧
    (zipEntries "/app" (fun q => q != "/app/uploads/a1/b.jpg")
        [⟨"p1", "a1", none, none, "/uploads/a1/a.jpg", some "A.jpg", 1, true⟩,
         ⟨"p2", "a1", none, none, "/uploads/a1/b.jpg", none, 1, true⟩,
         ⟨"p3", "a1", none, none, "/uploads/a1/c.jpg", some "C.jpg", 1, false⟩]
      = (([⟨"p1", "a1", none, none, "/uploads/a1/a.jpg", some "A.jpg", 1, true⟩,
           ⟨"p2", "a1", none, none, "/uploads/a1/b.jpg", none, 1, true⟩,
           ⟨"p3", "a1", none, none, "/uploads/a1/c.jpg", some "C.jpg", 1, false⟩] :
            List PhotoDoc).filter
              (fun q => (fun x => x != "/app/uploads/a1/b.jpg") (fsPathOf "/app" q.file_url))).map
          (fun q => (arcnameOf q (fsPathOf "/app" q.file_url), fsPathOf "/app" q.file_url)) ∧
    (zipEntries "/app" (fun q => q != "/app/uploads/a1/b.jpg")
        [⟨"p1", "a1", none, none, "/uploads/a1/a.jpg", some "A.jpg", 1, true⟩,
         ⟨"p2", "a1", none, none, "/uploads/a1/b.jpg", none, 1, true⟩,
         ⟨"p3", "a1", none, none, "/uploads/a1/c.jpg", some "C.jpg", 1, false⟩]).length
      = (([⟨"p1", "a1", none, none, "/uploads/a1/a.jpg", some "A.jpg", 1, true⟩,
           ⟨"p2", "a1", none, none, "/uploads/a1/b.jpg", none, 1, true⟩,
           ⟨"p3", "a1", none, none, "/uploads/a1/c.jpg", some "C.jpg", 1, false⟩] :
            List PhotoDoc).filter
              (fun q => (fun x => x != "/app/uploads/a1/b.jpg") (fsPathOf "/app" q.file_url))).length ∧
    ((⟨"p1", "a1", none, none, "/uploads/a1/a.jpg", some "A.jpg", 1, true⟩ :
        PhotoDoc).file_name = some "A.jpg" → "A.jpg" ≠ "" →
      arcnameOf ⟨"p1", "a1", none, none, "/uploads/a1/a.jpg", some "A.jpg", 1, true⟩
          (fsPathOf "/app"
            (⟨"p1", "a1", none, none, "/uploads/a1/a.jpg", some "A.jpg", 1, true⟩ :
              PhotoDoc).file_url) = "A.jpg") ∧
    (((⟨"p1", "a1", none, none, "/uploads/a1/a.jpg", some "A.jpg", 1, true⟩ :
        PhotoDoc).file_name = none ∨
      (⟨"p1", "a1", none, none, "/uploads/a1/a.jpg", some "A.jpg", 1, true⟩ :
        PhotoDoc).file_name = some "") →
      arcnameOf ⟨"p1", "a1", none, none, "/uploads/a1/a.jpg", some "A.jpg", 1, true⟩
          (fsPathOf "/app"
            (⟨"p1", "a1", none, none, "/uploads/a1/a.jpg", some "A.jpg", 1, true⟩ :
              PhotoDoc).file_url)
        = basename (fsPathOf "/app"
            (⟨"p1", "a1", none, none, "/uploads/a1/a.jpg", some "A.jpg", 1, true⟩ :
              PhotoDoc).file_url))) :=
  ⟨by decide,
   archive_one_entry_per_existing_file "/app" (fun q => q != "/app/uploads/a1/b.jpg")
     [⟨"p1", "a1", none, none, "/uploads/a1/a.jpg", some "A.jpg", 1, true⟩,
      ⟨"p2", "a1", none, none, "/uploads/a1/b.jpg", none, 1, true⟩,
      ⟨"p3", "a1", none, none, "/uploads/a1/c.jpg", some "C.jpg", 1, false⟩]
     ⟨"p1", "a1", none, none, "/uploads/a1/a.jpg", some "A.jpg", 1, true⟩ "A.jpg"
     (by decide)⟩

/-! ### Claim C4: the up-front empty check of bulk download -/

/-- C4 counterexample: an album with one photo record whose backing file
does not resolve has zero resolvable files, yet download_album_zip does
not fail: it succeeds with a zero-entry archive. -/
theorem empty_archive_counterexample :
    download_album_zip ["a1"]
        [⟨"p1", "a1", none, none, "/uploads/a1/x.jpg", some "x.jpg", 1, true⟩]
        "a1" "/app" (fun _ => false)
      = Except.ok ⟨"album-" ++ "a1" ++ ".zip", []⟩ ∧
    zipEntries "/app" (fun _ => false)
        [⟨"p1", "a1", none, none, "/uploads/a1/x.jpg", some "x.jpg", 1, true⟩] = [] := by
  exact ⟨rfl, rfl⟩

/-- C4 (amended): with the album present, bulk download fails with 404
before any archive work exactly when the album's photo record set is
empty; when records exist the endpoint succeeds with the archive built
from them, even when none of the backing files resolves (so a zero-entry
archive is possible). -/
theorem bulk_download_empty_check (albums : List String) (photos : List PhotoDoc)
    (albumId cwd : String) (fs : String → Bool)
    (hA : albums.contains albumId = true) :
    (photos.filter (fun p => p.album_id == albumId) = [] →
      download_album_zip albums photos albumId cwd fs = Except.error 404) ∧
    (photos.filter (fun p => p.album_id == albumId) ≠ [] →
      download_album_zip albums photos albumId cwd fs
        = Except.ok ⟨"album-" ++ albumId ++ ".zip",
            zipEntries cwd fs (photos.filter (fun p => p.album_id == albumId))⟩) := by
  have hA' : albumId ∈ albums := by simpa using hA
  constructor
  · intro he
    simp only [download_album_zip, he]
    simp [hA']
  · intro hne
    simp only [download_album_zip]
    have hne' : (photos.filter (fun p => p.album_id == albumId)).isEmpty = false := by
      cases hl : photos.filter (fun p => p.album_id == albumId) with
      | nil => exact absurd hl hne
      | cons a l => simp
    simp [hA', hne']

theorem bulk_download_empty_check_witness :
    ((["a1"] : List String).contains "a1" = true) ∧
    ((([⟨"p1", "a1", none, none, "/uploads/a1/x.jpg", some "x.jpg", 1, true⟩] :
        List PhotoDoc).filter (fun p => p.album_id == "a1") = [] →
      download_album_zip ["a1"]
          [⟨"p1", "a1", none, none, "/uploads/a1/x.jpg", some "x.jpg", 1, true⟩]
          "a1" "/app" (fun _ => false) = Except.error 404) ∧
    (([⟨"p1", "a1", none, none, "/uploads/a1/x.jpg", some "x.jpg", 1, true⟩] :
        List PhotoDoc).filter (fun p => p.album_id == "a1") ≠ [] →
      download_album_zip ["a1"]
          [⟨"p1", "a1", none, none, "/uploads/a1/x.jpg", some "x.jpg", 1, true⟩]
          "a1" "/app" (fun _ => false)
        = Except.ok ⟨"album-" ++ "a1" ++ ".zip",
            zipEntries "/app" (fun _ => false)
              (([⟨"p1", "a1", none, none, "/uploads/a1/x.jpg", some "x.jpg", 1, true⟩] :
                List PhotoDoc).filter (fun p => p.album_id == "a1"))⟩)) :=
  ⟨by decide,
   bulk_download_empty_check ["a1"]
     [⟨"p1", "a1", none, none, "/uploads/a1/x.jpg", some "x.jpg", 1, true⟩]
     "a1" "/app" (fun _ => false) (by decide)⟩

/-! ### Claim C10: the downloadable flag is never consulted -/

/-- Erase the downloadable flag; two record lists that agree after
scrubbing differ at most in their downloadable flags. -/
def scrubFlag (p : PhotoDoc) : PhotoDoc := { p with downloadable := true }

lemma scrubFlag_fields {p q : PhotoDoc} (h : scrubFlag p = scrubFlag q) :
    p.id = q.id ∧ p.album_id = q.album_id ∧ p.file_url = q.file_url ∧
    p.file_name = q.file_name := by
  have h1 := congrArg PhotoDoc.id h
  have h2 := congrArg PhotoDoc.album_id h
  have h3 := congrArg PhotoDoc.file_url h
  have h4 := congrArg PhotoDoc.file_name h
  exact ⟨h1, h2, h3, h4⟩

lemma arcname_congr {p q : PhotoDoc} (h : p.file_name = q.file_name) (x : String) :
    arcnameOf p x = arcnameOf q x := by
  simp [arcnameOf, h]

lemma download_photo_flag_free (photoId cwd : String) (fs : String → Bool) :
    ∀ ph1 ph2 : List PhotoDoc, ph1.map scrubFlag = ph2.map scrubFlag →
      download_photo ph1 photoId cwd fs = download_photo ph2 photoId cwd fs := by
  intro ph1
  induction ph1 with
  | nil =>
    intro ph2 h
    cases ph2 with
    | nil => rfl
    | cons q qs => simp at h
  | cons p ps ih =>
    intro ph2 h
    cases ph2 with
    | nil => simp at h
    | cons q qs =>
      simp only [List.map_cons, List.cons.injEq] at h
      obtain ⟨hpq, hrest⟩ := h
      obtain ⟨hid, _, hurl, hname⟩ := scrubFlag_fields hpq
      simp only [download_photo]
      by_cases hm : (p.id == photoId) = true
      · have hmp : (fun r : PhotoDoc => r.id == photoId) p = true := hm
        have hmq : (fun r : PhotoDoc => r.id == photoId) q = true := by
          show (q.id == photoId) = true
          rw [← hid]
          exact hm
        have hf1 : List.find? (fun r : PhotoDoc => r.id == photoId) (p :: ps) = some p :=
          List.find?_cons_of_pos _ hmp
        have hf2 : List.find? (fun r : PhotoDoc => r.id == photoId) (q :: qs) = some q :=
          List.find?_cons_of_pos _ hmq
        rw [hf1, hf2]
        simp only [hurl, arcname_congr hname]
      · have hmp : ¬ ((fun r : PhotoDoc => r.id == photoId) p = true) := hm
        have hmq : ¬ ((fun r : PhotoDoc => r.id == photoId) q = true) := by
          show ¬ ((q.id == photoId) = true)
          rw [← hid]
          exact hm
        have hf1 : List.find? (fun r : PhotoDoc => r.id == photoId) (p :: ps)
            = List.find? (fun r : PhotoDoc => r.id == photoId) ps :=
          List.find?_cons_of_neg _ hmp
        have hf2 : List.find? (fun r : PhotoDoc => r.id == photoId) (q :: qs)
            = List.find? (fun r : PhotoDoc => r.id == photoId) qs :=
          List.find?_cons_of_neg _ hmq
        rw [hf1, hf2]
        have hih := ih qs hrest
        simp only [download_photo] at hih
        exact hih

lemma zipEntries_flag_free (cwd : String) (fs : String → Bool) :
    ∀ ph1 ph2 : List PhotoDoc, ph1.map scrubFlag = ph2.map scrubFlag →
      zipEntries cwd fs ph1 = zipEntries cwd fs ph2 := by
  intro ph1
  induction ph1 with
  | nil =>
    intro ph2 h
    cases ph2 with
    | nil => rfl
    | cons q qs => simp at h
  | cons p ps ih =>
    intro ph2 h
    cases ph2 with
    | nil => simp at h
    | cons q qs =>
      simp only [List.map_cons, List.cons.injEq] at h
      obtain ⟨hpq, hrest⟩ := h
      obtain ⟨_, _, hurl, hname⟩ := scrubFlag_fields hpq
      simp only [zipEntries]
      rw [hurl, arcname_congr hname, ih qs hrest]

lemma filter_album_flag_free (albumId : String) :
    ∀ ph1 ph2 : List PhotoDoc, ph1.map scrubFlag = ph2.map scrubFlag →
      (ph1.filter (fun p => p.album_id == albumId)).map scrubFlag
        = (ph2.filter (fun p => p.album_id == albumId)).map scrubFlag := by
  intro ph1
  induction ph1 with
  | nil =>
    intro ph2 h
    cases ph2 with
    | nil => rfl
    | cons q qs => simp at h
  | cons p ps ih =>
    intro ph2 h
    cases ph2 with
    | nil => simp at h
    | cons q qs =>
      simp only [List.map_cons, List.cons.injEq] at h
      obtain ⟨hpq, hrest⟩ := h
      obtain ⟨_, halb, _, _⟩ := scrubFlag_fields hpq
      simp only [List.filter_cons]
      rw [halb]
      by_cases hm : (q.album_id == albumId) = true
      · rw [if_pos hm, if_pos hm]
        simp only [List.map_cons, List.cons.injEq]
        exact ⟨hpq, ih qs hrest⟩
      · rw [if_neg hm, if_neg hm]
        exact ih qs hrest

lemma download_album_zip_flag_free (albums : List String) (albumId cwd : String)
    (fs : String → Bool) (ph1 ph2 : List PhotoDoc)
    (h : ph1.map scrubFlag = ph2.map scrubFlag) :
    download_album_zip albums ph1 albumId cwd fs
      = download_album_zip albums ph2 albumId cwd fs := by
  have hf := filter_album_flag_free albumId ph1 ph2 h
  have hemp : (ph1.filter (fun p => p.album_id == albumId)).isEmpty
      = (ph2.filter (fun p => p.album_id == albumId)).isEmpty := by
    cases h1 : ph1.filter (fun p => p.album_id == albumId) with
    | nil =>
      have h0 : (ph2.filter (fun p => p.album_id == albumId)).map scrubFlag = [] := by
        rw [← hf, h1]
        rfl
      rw [List.map_eq_nil_iff] at h0
      rw [h0]
    | cons a l =>
      cases h2 : ph2.filter (fun p => p.album_id == albumId) with
      | nil =>
        exfalso
        rw [h1, h2] at hf
        simp at hf
      | cons b m => rfl
  simp only [download_album_zip]
  by_cases hc : albums.contains albumId = false
  · rw [if_pos hc, if_pos hc]
  · rw [if_neg hc, if_neg hc, hemp]
    by_cases he : (ph2.filter (fun p => p.album_id == albumId)).isEmpty = true
    · rw [if_pos he, if_pos he]
    · rw [if_neg he, if_neg he]
      rw [zipEntries_flag_free cwd fs _ _ hf]

/-- C10: neither the individual download nor the bulk-download archive
depends on the downloadable flag: two record collections identical except
for that flag produce identical responses, and a record found with
downloadable = false whose file exists is still served. -/
theorem downloadable_flag_never_consulted (ph1 ph2 : List PhotoDoc)
    (albums : List String) (photoId albumId cwd : String) (fs : String → Bool)
    (p : PhotoDoc) (h : ph1.map scrubFlag = ph2.map scrubFlag) :
    download_photo ph1 photoId cwd fs = download_photo ph2 photoId cwd fs ∧
    download_album_zip albums ph1 albumId cwd fs
      = download_album_zip albums ph2 albumId cwd fs ∧
    (ph1.find? (fun r => r.id == photoId) = some p → p.downloadable = false →
      fs (fsPathOf cwd p.file_url) = true →
      download_photo ph1 photoId cwd fs
        = Except.ok (fsPathOf cwd p.file_url, arcnameOf p (fsPathOf cwd p.file_url))) := by
  refine ⟨download_photo_flag_free photoId cwd fs ph1 ph2 h,
          download_album_zip_flag_free albums albumId cwd fs ph1 ph2 h, ?_⟩
  intro hfind hflag hfs
  simp only [download_photo, hfind, hfs]
  simp

theorem downloadable_flag_never_consulted_witness :
    (([⟨"p1", "a1", none, none, "/uploads/a1/x.jpg", some "x.jpg", 1, false⟩] :
        List PhotoDoc).map scrubFlag
      = ([⟨"p1", "a1", none, none, "/uploads/a1/x.jpg", some "x.jpg", 1, true⟩] :
        List PhotoDoc).map scrubFlag) ∧
    (download_photo [⟨"p1", "a1", none, none, "/uploads/a1/x.jpg", some "x.jpg", 1, false⟩]
        "p1" "/app" (fun _ => true)
      = download_photo [⟨"p1", "a1", none, none, "/uploads/a1/x.jpg", some "x.jpg", 1, true⟩]
        "p1" "/app" (fun _ => true) ∧
    download_album_zip ["a1"]
        [⟨"p1", "a1", none, none, "/uploads/a1/x.jpg", some "x.jpg", 1, false⟩]
        "a1" "/app" (fun _ => true)
      = download_album_zip ["a1"]
        [⟨"p1", "a1", none, none, "/uploads/a1/x.jpg", some "x.jpg", 1, true⟩]
        "a1" "/app" (fun _ => true) ∧
    (([⟨"p1", "a1", none, none, "/uploads/a1/x.jpg", some "x.jpg", 1, false⟩] :
        List PhotoDoc).find? (fun r => r.id == "p1")
        = some ⟨"p1", "a1", none, none, "/uploads/a1/x.jpg", some "x.jpg", 1, false⟩ →
      (⟨"p1", "a1", none, none, "/uploads/a1/x.jpg", some "x.jpg", 1, false⟩ :
        PhotoDoc).downloadable = false →
      (fun _ : String => true)
          (fsPathOf "/app"
            (⟨"p1", "a1", none, none, "/uploads/a1/x.jpg", some "x.jpg", 1, false⟩ :
              PhotoDoc).file_url) = true →
      download_photo [⟨"p1", "a1", none, none, "/uploads/a1/x.jpg", some "x.jpg", 1, false⟩]
          "p1" "/app" (fun _ => true)
        = Except.ok
            (fsPathOf "/app"
              (⟨"p1", "a1", none, none, "/uploads/a1/x.jpg", some "x.jpg", 1, false⟩ :
                PhotoDoc).file_url,
             arcnameOf ⟨"p1", "a1", none, none, "/uploads/a1/x.jpg", some "x.jpg", 1, false⟩
              (fsPathOf "/app"
                (⟨"p1", "a1", none, none, "/uploads/a1/x.jpg", some "x.jpg", 1, false⟩ :
                  PhotoDoc).file_url)))) :=
  ⟨by decide,
   downloadable_flag_never_consulted
     [⟨"p1", "a1", none, none, "/uploads/a1/x.jpg", some "x.jpg", 1, false⟩]
     [⟨"p1", "a1", none, none, "/uploads/a1/x.jpg", some "x.jpg", 1, true⟩]
     ["a1"] "p1" "a1" "/app" (fun _ => true)
     ⟨"p1", "a1", none, none, "/uploads/a1/x.jpg", some "x.jpg", 1, false⟩ (by decide)⟩

/-! ### Claim C1: 401 versus 403 discipline of the admin gate -/

lemma get_current_user_error_401 (decode : String → Option Payload)
    (auth : Option String) (e : Nat)
    (h : get_current_user decode auth = Except.error e) : e = 401 := by
  unfold get_current_user at h
  repeat' split at h
  all_goals simp_all

/-- C1: for every request to an admin-only operation, a missing header, a
header that is not a two-part case-insensitive Bearer header (including
"Bearer " followed by the empty string, since the empty string is not a
decodable token), and an invalid or expired token all yield 401 and never
403: every authentication failure carries status 401 and the guard
propagates it unchanged; 403 is returned exactly when authentication
succeeds and the derived identity's role is not admin. -/
theorem admin_gate_auth_discipline (decode : String → Option Payload)
    (auth : Option String) (e : Nat) (u : TokenData) (s sch tok : String)
    (hempty : decode "" = none) :
    (get_current_user decode auth = Except.error e → e = 401) ∧
    (get_current_user decode auth = Except.error e →
      admin_guard decode auth = Except.error e) ∧
    (get_current_user decode auth = Except.ok u →
      (admin_guard decode auth = Except.error 403 ↔ u.role ≠ "admin")) ∧
    (auth = none → admin_guard decode auth = Except.error 401) ∧
    (auth = some "Bearer " → admin_guard decode auth = Except.error 401) ∧
    (auth = some s → (pySplitSpace s).length ≠ 2 →
      admin_guard decode auth = Except.error 401) ∧
    (auth = some s → pySplitSpace s = [sch, tok] → strLower sch ≠ "bearer" →
      admin_guard decode auth = Except.error 401) ∧
    (auth = some s → pySplitSpace s = [sch, tok] → strLower sch = "bearer" →
      decode tok = none → admin_guard decode auth = Except.error 401) := by
  refine ⟨get_current_user_error_401 decode auth e, ?_, ?_, ?_, ?_, ?_, ?_, ?_⟩
  · intro h
    simp [admin_guard, h]
  · intro h
    simp only [admin_guard, h, require_admin]
    by_cases hr : u.role = "admin"
    · simp [hr]
    · simp [hr]
  · intro h
    subst h
    simp [admin_guard, get_current_user]
  · intro h
    subst h
    have h0 : ("Bearer " : String) ≠ "" := by decide
    have h1 : pySplitSpace "Bearer " = ["Bearer", ""] := by decide
    have h2 : strLower "Bearer" = "bearer" := by decide
    simp [admin_guard, get_current_user, h0, h1, h2, hempty]
  · intro hs hlen
    subst hs
    by_cases hse : s = ""
    · subst hse
      simp [admin_guard, get_current_user]
    · simp only [admin_guard, get_current_user, if_neg hse]
      rcases hsp : pySplitSpace s with - | ⟨a, - | ⟨b, - | ⟨c, l⟩⟩⟩
      · simp
      · simp
      · rw [hsp] at hlen
        simp at hlen
      · simp
  · intro hs hsp hsch
    subst hs
    by_cases hse : s = ""
    · subst hse
      rw [show pySplitSpace "" = [""] from by decide] at hsp
      simp at hsp
    · simp only [admin_guard, get_current_user, if_neg hse, hsp]
      simp [hsch]
  · intro hs hsp hsch hd
    subst hs
    by_cases hse : s = ""
    · subst hse
      rw [show pySplitSpace "" = [""] from by decide] at hsp
      simp at hsp
    · simp only [admin_guard, get_current_user, if_neg hse, hsp]
      simp [hsch, hd]

theorem admin_gate_auth_discipline_witness :
    ((fun _ : String => (none : Option Payload)) "" = none) ∧
    ((get_current_user (fun _ => none) (some "Bearer abc") = Except.error 401 →
        (401 : Nat) = 401) ∧
     (get_current_user (fun _ => none) (some "Bearer abc") = Except.error 401 →
        admin_guard (fun _ => none) (some "Bearer abc") = Except.error 401) ∧
     (get_current_user (fun _ => none) (some "Bearer abc")
          = Except.ok ⟨"u1", "user"⟩ →
        (admin_guard (fun _ => none) (some "Bearer abc") = Except.error 403 ↔
          (⟨"u1", "user"⟩ : TokenData).role ≠ "admin")) ∧
     ((some "Bearer abc" : Option String) = none →
        admin_guard (fun _ => none) (some "Bearer abc") = Except.error 401) ∧
     ((some "Bearer abc" : Option String) = some "Bearer " →
        admin_guard (fun _ => none) (some "Bearer abc") = Except.error 401) ∧
     ((some "Bearer abc" : Option String) = some "Bearer abc" →
        (pySplitSpace "Bearer abc").length ≠ 2 →
        admin_guard (fun _ => none) (some "Bearer abc") = Except.error 401) ∧
     ((some "Bearer abc" : Option String) = some "Bearer abc" →
        pySplitSpace "Bearer abc" = ["Bearer", "abc"] →
        strLower "Bearer" ≠ "bearer" →
        admin_guard (fun _ => none) (some "Bearer abc") = Except.error 401) ∧
     ((some "Bearer abc" : Option String) = some "Bearer abc" →
        pySplitSpace "Bearer abc" = ["Bearer", "abc"] →
        strLower "Bearer" = "bearer" →
        (fun _ : String => (none : Option Payload)) "abc" = none →
        admin_guard (fun _ => none) (some "Bearer abc") = Except.error 401)) :=
  ⟨rfl,
   admin_gate_auth_discipline (fun _ => none) (some "Bearer abc") 401 ⟨"u1", "user"⟩
     "Bearer abc" "Bearer" "abc" rfl⟩

/-! ### Claim C9: tokens without a role claim -/

/-- C9 counterexample to the claim as stated: a token that decodes
successfully under the signing key but carries neither a role nor a sub
claim does not make authentication return an identity with role "user";
get_current_user rejects it with 401 because the missing sub claim fails
the TokenData field validation. -/
theorem roleless_token_counterexample :
    (fun t : String =>
        if t = "t0" then some (⟨none, none, 1000⟩ : Payload) else none) "t0"
      = some ⟨none, none, 1000⟩ ∧
    (⟨none, none, 1000⟩ : Payload).role = none ∧
    get_current_user
        (fun t => if t = "t0" then some ⟨none, none, 1000⟩ else none)
        (some "Bearer t0") = Except.error 401 :=
  ⟨rfl, rfl, rfl⟩

/-- C9 (amended): for every token that decodes successfully under the
signing key, carries a sub claim, but carries no role claim,
authentication returns an identity whose role is "user" (never admin),
and the admin gate therefore rejects it with 403: admin access requires
an explicit role = "admin" claim in the token. -/
theorem roleless_token_defaults_to_user (decode : String → Option Payload)
    (s sch tok uid : String) (p : Payload)
    (hs : pySplitSpace s = [sch, tok]) (hsch : strLower sch = "bearer")
    (hd : decode tok = some p) (hrole : p.role = none) (hsub : p.sub = some uid) :
    get_current_user decode (some s) = Except.ok ⟨uid, "user"⟩ ∧
    admin_guard decode (some s) = Except.error 403 := by
  have hse : s ≠ "" := by
    intro h
    subst h
    rw [show pySplitSpace "" = [""] from by decide] at hs
    simp at hs
  have h1 : get_current_user decode (some s) = Except.ok ⟨uid, "user"⟩ := by
    simp [get_current_user, hse, hs, hsch, hd, tokenDataOfPayload, hsub, hrole]
  refine ⟨h1, ?_⟩
  have h2 : ("user" : String) ≠ "admin" := by decide
  simp [admin_guard, h1, require_admin, h2]

theorem roleless_token_defaults_to_user_witness :
    pySplitSpace "bEaReR t1" = ["bEaReR", "t1"] ∧
    strLower "bEaReR" = "bearer" ∧
    ((fun t : String =>
        if t = "t1" then some (⟨some "u7", none, 5⟩ : Payload) else none) "t1"
      = some ⟨some "u7", none, 5⟩) ∧
    (⟨some "u7", none, 5⟩ : Payload).role = none ∧
    (⟨some "u7", none, 5⟩ : Payload).sub = some "u7" ∧
    (get_current_user
        (fun t => if t = "t1" then some ⟨some "u7", none, 5⟩ else none)
        (some "bEaReR t1") = Except.ok ⟨"u7", "user"⟩ ∧
     admin_guard
        (fun t => if t = "t1" then some ⟨some "u7", none, 5⟩ else none)
        (some "bEaReR t1") = Except.error 403) :=
  ⟨by decide, by decide, rfl, rfl, rfl,
   roleless_token_defaults_to_user
     (fun t => if t = "t1" then some ⟨some "u7", none, 5⟩ else none)
     "bEaReR t1" "bEaReR" "t1" "u7" ⟨some "u7", none, 5⟩
     (by decide) (by decide) rfl rfl rfl⟩

/-! ### Concrete sanity checks on the embedding -/

example : splitext "photo.JPG" = ("photo", ".JPG") := by decide

example : splitext ".bashrc" = (".bashrc", "") := by decide

example : splitext "a/b.c/d" = ("a/b.c/d", "") := by decide

example : splitext "archive.tar.gz" = ("archive.tar", ".gz") := by decide

example : pySplitSpace "Bearer " = ["Bearer", ""] := by decide

example : pySplitSpace "Bearer a b" = ["Bearer", "a", "b"] := by decide

example : pySplitSpace "" = [""] := by decide

example : strLower "BeArEr" = "bearer" := by decide

example : basename "/app/uploads/a1/x.jpg" = "x.jpg" := by decide

example : lstripSlash "//uploads/a/b" = "uploads/a/b" := by decide

example :
    (runRegs (fun s => s)
      [("i1", ⟨"a", "a@x", "p"⟩), ("i2", ⟨"b", "a@x", "p"⟩), ("i3", ⟨"c", "c@x", "p"⟩)]
      []).map (fun u => u.role) = ["admin", "user"] := by decide

example : (allocate "/app" "a1" "Photo.JPG" "oidA").1 = "/app/uploads/a1/oidA.JPG" := by
  decide

example : (allocate "/app" "a1" "Photo.JPG" "oidA").2 = "/uploads/a1/oidA.JPG" := by
  decide

example :
    (upload_photo ["a1"] ⟨[], []⟩ "/app" "a1" "x.jpg" none none "o1" "p1" 3 true).1 =
      Except.ok ⟨"p1", "a1", none, none, "/uploads/a1/o1.jpg", some "x.jpg", 3, true⟩ := by
  rfl
